import Mathlib

/-!
Shallow embedding of the tabular persistence and aggregation core of
`src/app.py` (a Streamlit personal-finance dashboard).

Each pandas DataFrame held in `st.session_state` is modelled as a `List` of
typed records (row order = positional index, matching `reset_index(drop=True)`
discipline).  Monetary values (Python floats entered through
`st.number_input`) are modelled as `ℚ`.  The Excel backing file is modelled
as a workbook of named sheets, each sheet a header row followed by data rows
of cells; a file can also be absent or unparseable.  Streamlit's `st.error`
calls are modelled as a returned `Bool` flag ("an error message was shown").
-/

namespace PersonalFinance

/-- A row of the `BankAccounts` sheet: columns `"Account Name"`, `"Balance"`
(src/app.py line 17). -/
structure BankRecord where
  accountName : String
  balance : ℚ
  deriving Repr, DecidableEq

/-- A row of the `MutualFunds` sheet: columns `"Fund Name"`, `"Total Value"`
(src/app.py line 19). -/
structure MutualRecord where
  fundName : String
  totalValue : ℚ
  deriving Repr, DecidableEq

/-- A row of the `StockHoldings` sheet: columns `"Stock"`, `"Total Value"`
(src/app.py line 21). -/
structure StockRecord where
  stock : String
  totalValue : ℚ
  deriving Repr, DecidableEq

/-- A row of the `Udhari` sheet: columns `"Person"`, `"Amount Owed"`
(src/app.py line 23). -/
structure UdhariRecord where
  person : String
  amountOwed : ℚ
  deriving Repr, DecidableEq

/-- A row of the `ProvisionFund` sheet: columns `"PF Account Name"`,
`"Balance"` (src/app.py line 25). -/
structure PFRecord where
  pfAccountName : String
  balance : ℚ
  deriving Repr, DecidableEq

/-- The five ledgers kept in `st.session_state` (src/app.py lines 16-25). -/
structure SessionState where
  bank_df : List BankRecord
  mutual_df : List MutualRecord
  stocks_df : List StockRecord
  udhari_df : List UdhariRecord
  pf_df : List PFRecord
  deriving Repr, DecidableEq

/-- The fresh session state: five empty dataframes (src/app.py lines 16-25). -/
def initial_session_state : SessionState :=
  { bank_df := [], mutual_df := [], stocks_df := [], udhari_df := [], pf_df := [] }

/-- Reason a submit handler shows an error instead of mutating a ledger. -/
inductive RejectReason where
  | emptyField
  | negativeValue
  deriving Repr, DecidableEq

/-- Outcome of one submit handler run. -/
inductive SubmitOutcome where
  | ok
  | rejected (r : RejectReason)
  deriving Repr, DecidableEq

/-- Python `str.strip()`: remove leading and trailing whitespace. -/
def py_strip (s : String) : String :=
  ⟨((s.data.dropWhile Char.isWhitespace).reverse.dropWhile Char.isWhitespace).reverse⟩

/-- Python `str.upper()` (on the ASCII symbols the app handles). -/
def py_upper (s : String) : String :=
  ⟨s.data.map Char.toUpper⟩

/-- Embeds `validate_positive_number` (src/app.py lines 52-56): returns `False`
(showing an error) when the value is negative, `True` otherwise. -/
def validate_positive_number (value : ℚ) : Bool :=
  if value < 0 then false else true

/-- The "Add Account" submit branch of `manage_bank_accounts`
(src/app.py lines 115-125): empty-after-strip name rejected first, then the
negative check, else the stripped name and balance are appended via
`pd.concat(..., ignore_index=True)`. -/
def add_bank_account (s : SessionState) (account_name : String) (balance : ℚ) :
    SessionState × SubmitOutcome :=
  if py_strip account_name = "" then (s, .rejected .emptyField)
  else if validate_positive_number balance = false then (s, .rejected .negativeValue)
  else ({ s with bank_df := s.bank_df ++ [{ accountName := py_strip account_name, balance := balance }] },
        .ok)

/-- The "Add Mutual Fund" submit branch of `manage_mutual_funds`
(src/app.py lines 175-185). -/
def add_mutual_fund (s : SessionState) (fund_name : String) (total_value : ℚ) :
    SessionState × SubmitOutcome :=
  if py_strip fund_name = "" then (s, .rejected .emptyField)
  else if validate_positive_number total_value = false then (s, .rejected .negativeValue)
  else ({ s with mutual_df := s.mutual_df ++ [{ fundName := py_strip fund_name, totalValue := total_value }] },
        .ok)

/-- The "Add Stock" submit branch of `manage_stock_holdings`
(src/app.py lines 236-244).  Note, faithful to the source: only the
empty-after-strip check is performed (no `validate_positive_number` call),
and the stored row is `{"Stock": Stock, ...}` — the raw submitted string,
neither stripped nor upper-cased (only the success message shows
`Stock.upper()`). -/
def add_stock_holding (s : SessionState) (Stock : String) (Total_value : ℚ) :
    SessionState × SubmitOutcome :=
  if py_strip Stock = "" then (s, .rejected .emptyField)
  else ({ s with stocks_df := s.stocks_df ++ [{ stock := Stock, totalValue := Total_value }] },
        .ok)

/-- The "Add Udhari" submit branch of `manage_udhari`
(src/app.py lines 289-299). -/
def add_udhari (s : SessionState) (person : String) (amount : ℚ) :
    SessionState × SubmitOutcome :=
  if py_strip person = "" then (s, .rejected .emptyField)
  else if validate_positive_number amount = false then (s, .rejected .negativeValue)
  else ({ s with udhari_df := s.udhari_df ++ [{ person := py_strip person, amountOwed := amount }] },
        .ok)

/-- The "Add Provision Fund" submit branch of `manage_provision_fund`
(src/app.py lines 344-354). -/
def add_provision_fund (s : SessionState) (pf_account_name : String) (pf_balance : ℚ) :
    SessionState × SubmitOutcome :=
  if py_strip pf_account_name = "" then (s, .rejected .emptyField)
  else if validate_positive_number pf_balance = false then (s, .rejected .negativeValue)
  else ({ s with pf_df := s.pf_df ++ [{ pfAccountName := py_strip pf_account_name, balance := pf_balance }] },
        .ok)

/-- The "Save Changes" branch of the bank edit form (src/app.py lines
140-150): both cells of the selected row are overwritten via `.at`;
out-of-range indices cannot arise in the UI (the index comes from
`st.selectbox` over `df.index`), so `List.set`'s out-of-range no-op is
unreachable there. -/
def edit_bank_account (s : SessionState) (selected_index : Nat)
    (new_name : String) (new_balance : ℚ) : SessionState × SubmitOutcome :=
  if py_strip new_name = "" then (s, .rejected .emptyField)
  else if validate_positive_number new_balance = false then (s, .rejected .negativeValue)
  else ({ s with bank_df :=
            s.bank_df.set selected_index ⟨py_strip new_name, new_balance⟩ }, .ok)

/-- The "Save Changes" branch of the mutual-fund edit form
(src/app.py lines 200-210). -/
def edit_mutual_fund (s : SessionState) (selected_index : Nat)
    (new_name : String) (total_value : ℚ) : SessionState × SubmitOutcome :=
  if py_strip new_name = "" then (s, .rejected .emptyField)
  else if validate_positive_number total_value = false then (s, .rejected .negativeValue)
  else ({ s with mutual_df :=
            s.mutual_df.set selected_index ⟨py_strip new_name, total_value⟩ }, .ok)

/-- The "Save Changes" branch of the stock edit form (src/app.py lines
259-268): only the empty-symbol check; the stored symbol here IS stripped
and upper-cased (`stock.strip().upper()`, line 264). -/
def edit_stock_holding (s : SessionState) (selected_index : Nat)
    (stock : String) (Total_value : ℚ) : SessionState × SubmitOutcome :=
  if py_strip stock = "" then (s, .rejected .emptyField)
  else ({ s with stocks_df :=
            s.stocks_df.set selected_index ⟨py_upper (py_strip stock), Total_value⟩ }, .ok)

/-- The "Save Changes" branch of the Udhari edit form
(src/app.py lines 314-323). -/
def edit_udhari (s : SessionState) (selected_index : Nat)
    (new_person : String) (new_amount : ℚ) : SessionState × SubmitOutcome :=
  if py_strip new_person = "" then (s, .rejected .emptyField)
  else if validate_positive_number new_amount = false then (s, .rejected .negativeValue)
  else ({ s with udhari_df :=
            s.udhari_df.set selected_index ⟨py_strip new_person, new_amount⟩ }, .ok)

/-- The "Save Changes" branch of the provision-fund edit form
(src/app.py lines 369-378). -/
def edit_provision_fund (s : SessionState) (selected_index : Nat)
    (new_pf_name : String) (new_pf_balance : ℚ) : SessionState × SubmitOutcome :=
  if py_strip new_pf_name = "" then (s, .rejected .emptyField)
  else if validate_positive_number new_pf_balance = false then (s, .rejected .negativeValue)
  else ({ s with pf_df :=
            s.pf_df.set selected_index ⟨py_strip new_pf_name, new_pf_balance⟩ }, .ok)

/-- The "Delete Account" branch (src/app.py lines 151-155):
`df.drop(selected_index).reset_index(drop=True)` removes the row at the
given position and renumbers the rest, i.e. `List.eraseIdx`. -/
def delete_bank_account (s : SessionState) (selected_index : Nat) : SessionState :=
  { s with bank_df := s.bank_df.eraseIdx selected_index }

/-- The "Delete Fund" branch (src/app.py lines 211-215). -/
def delete_mutual_fund (s : SessionState) (selected_index : Nat) : SessionState :=
  { s with mutual_df := s.mutual_df.eraseIdx selected_index }

/-- The "Delete Stock" branch (src/app.py lines 269-273). -/
def delete_stock_holding (s : SessionState) (selected_index : Nat) : SessionState :=
  { s with stocks_df := s.stocks_df.eraseIdx selected_index }

/-- The "Delete Record" branch (src/app.py lines 324-328). -/
def delete_udhari (s : SessionState) (selected_index : Nat) : SessionState :=
  { s with udhari_df := s.udhari_df.eraseIdx selected_index }

/-- The "Delete Provision Fund" branch (src/app.py lines 379-383). -/
def delete_provision_fund (s : SessionState) (selected_index : Nat) : SessionState :=
  { s with pf_df := s.pf_df.eraseIdx selected_index }

/-- The aggregate figures computed by `financial_overview`
(src/app.py lines 58-83), with the source's own field names (including the
misspelt `udahri_cash`). -/
structure Totals where
  total_bank : ℚ
  total_mutual : ℚ
  total_stocks : ℚ
  total_udhari : ℚ
  total_pf : ℚ
  udahri_cash : ℚ
  udhari_cash_stock : ℚ
  total_wealth : ℚ
  deriving Repr, DecidableEq

/-- Embeds `financial_overview` (src/app.py lines 58-83), restricted to the numbers
it computes: each per-category total is the sum of the ledger's value column
(`0` when guarded by `df.empty`), `udahri_cash = total_bank + total_udhari`,
`udhari_cash_stock = udahri_cash + total_mutual + total_stocks`, and
`total_wealth` is the sum of all five. -/
def financial_overview (s : SessionState) : Totals :=
  let total_bank := if s.bank_df.isEmpty then 0 else (s.bank_df.map (fun r => r.balance)).sum
  let total_mutual := if s.mutual_df.isEmpty then 0 else (s.mutual_df.map (fun r => r.totalValue)).sum
  let total_stocks := if s.stocks_df.isEmpty then 0 else (s.stocks_df.map (fun r => r.totalValue)).sum
  let total_udhari := if s.udhari_df.isEmpty then 0 else (s.udhari_df.map (fun r => r.amountOwed)).sum
  let total_pf := if s.pf_df.isEmpty then 0 else (s.pf_df.map (fun r => r.balance)).sum
  let udahri_cash := total_bank + total_udhari
  let udhari_cash_stock := udahri_cash + total_mutual + total_stocks
  let total_wealth := total_bank + total_mutual + total_stocks + total_udhari + total_pf
  { total_bank := total_bank, total_mutual := total_mutual, total_stocks := total_stocks,
    total_udhari := total_udhari, total_pf := total_pf, udahri_cash := udahri_cash,
    udhari_cash_stock := udhari_cash_stock, total_wealth := total_wealth }

/-- A spreadsheet cell: either text or a number. -/
inductive Cell where
  | str (s : String)
  | num (q : ℚ)
  deriving Repr, DecidableEq

/-- One sheet of the workbook: a header row followed by data rows
(`to_excel(..., index=False)` layout). -/
abbrev Sheet := List (List Cell)

/-- The workbook layout of the backing file / snapshot: the five named
sheets `BankAccounts`, `MutualFunds`, `StockHoldings`, `Udhari`,
`ProvisionFund` (src/app.py lines 9-13); a sheet the workbook lacks is
`none` (reading it raises, src/app.py lines 30-34 and 406-410). -/
structure Workbook where
  bankSheet : Option Sheet
  mutualSheet : Option Sheet
  stocksSheet : Option Sheet
  udhariSheet : Option Sheet
  pfSheet : Option Sheet
  deriving Repr, DecidableEq

/-- Header row of the `BankAccounts` sheet (src/app.py line 17). -/
def bankHeader : List Cell := [.str ("Account Name"), .str ("Balance")]

/-- Header row of the `MutualFunds` sheet (src/app.py line 19). -/
def mutualHeader : List Cell := [.str ("Fund Name"), .str ("Total Value")]

/-- Header row of the `StockHoldings` sheet (src/app.py line 21). -/
def stocksHeader : List Cell := [.str ("Stock"), .str ("Total Value")]

/-- Header row of the `Udhari` sheet (src/app.py line 23). -/
def udhariHeader : List Cell := [.str ("Person"), .str ("Amount Owed")]

/-- Header row of the `ProvisionFund` sheet (src/app.py line 25). -/
def pfHeader : List Cell := [.str ("PF Account Name"), .str ("Balance")]

/-- Decode every data row of a sheet, failing if any row fails. -/
def decode_rows {α : Type} (decRow : List Cell → Option α) :
    List (List Cell) → Option (List α)
  | [] => some []
  | row :: rest =>
    match decRow row, decode_rows decRow rest with
    | some r, some rs => some (r :: rs)
    | _, _ => none

/-- One `BankAccounts` data row. -/
def decode_bank_row : List Cell → Option BankRecord
  | [.str n, .num b] => some ⟨n, b⟩
  | _ => none

/-- One `MutualFunds` data row. -/
def decode_mutual_row : List Cell → Option MutualRecord
  | [.str n, .num v] => some ⟨n, v⟩
  | _ => none

/-- One `StockHoldings` data row. -/
def decode_stocks_row : List Cell → Option StockRecord
  | [.str n, .num v] => some ⟨n, v⟩
  | _ => none

/-- One `Udhari` data row. -/
def decode_udhari_row : List Cell → Option UdhariRecord
  | [.str n, .num a] => some ⟨n, a⟩
  | _ => none

/-- One `ProvisionFund` data row. -/
def decode_pf_row : List Cell → Option PFRecord
  | [.str n, .num b] => some ⟨n, b⟩
  | _ => none

/-- Serialize the bank ledger as `to_excel(..., index=False)` does:
header row then one row per record, row order preserved
(src/app.py line 44). -/
def encode_bank (l : List BankRecord) : Sheet :=
  bankHeader :: l.map (fun r => [.str r.accountName, .num r.balance])

/-- Serialize the mutual-fund ledger (src/app.py line 45). -/
def encode_mutual (l : List MutualRecord) : Sheet :=
  mutualHeader :: l.map (fun r => [.str r.fundName, .num r.totalValue])

/-- Serialize the stock ledger (src/app.py line 46). -/
def encode_stocks (l : List StockRecord) : Sheet :=
  stocksHeader :: l.map (fun r => [.str r.stock, .num r.totalValue])

/-- Serialize the Udhari ledger (src/app.py line 47). -/
def encode_udhari (l : List UdhariRecord) : Sheet :=
  udhariHeader :: l.map (fun r => [.str r.person, .num r.amountOwed])

/-- Serialize the provision-fund ledger (src/app.py line 48). -/
def encode_pf (l : List PFRecord) : Sheet :=
  pfHeader :: l.map (fun r => [.str r.pfAccountName, .num r.balance])

/-- Parse a whole `BankAccounts` sheet (header plus data rows) back into a
ledger; `none` models a sheet `pd.read_excel` cannot deliver in the
expected layout. -/
def decode_bank_sheet : Sheet → Option (List BankRecord)
  | [] => none
  | h :: rows => if h = bankHeader then decode_rows decode_bank_row rows else none

/-- Parse a whole `MutualFunds` sheet. -/
def decode_mutual_sheet : Sheet → Option (List MutualRecord)
  | [] => none
  | h :: rows => if h = mutualHeader then decode_rows decode_mutual_row rows else none

/-- Parse a whole `StockHoldings` sheet. -/
def decode_stocks_sheet : Sheet → Option (List StockRecord)
  | [] => none
  | h :: rows => if h = stocksHeader then decode_rows decode_stocks_row rows else none

/-- Parse a whole `Udhari` sheet. -/
def decode_udhari_sheet : Sheet → Option (List UdhariRecord)
  | [] => none
  | h :: rows => if h = udhariHeader then decode_rows decode_udhari_row rows else none

/-- Parse a whole `ProvisionFund` sheet. -/
def decode_pf_sheet : Sheet → Option (List PFRecord)
  | [] => none
  | h :: rows => if h = pfHeader then decode_rows decode_pf_row rows else none

/-- Models `pd.read_excel(xls, SHEET_BANK)`: `none` is the raised exception
(sheet absent or unreadable). -/
def read_excel_bank (wb : Workbook) : Option (List BankRecord) :=
  wb.bankSheet.bind decode_bank_sheet

/-- Models `pd.read_excel(xls, SHEET_MUTUAL)`. -/
def read_excel_mutual (wb : Workbook) : Option (List MutualRecord) :=
  wb.mutualSheet.bind decode_mutual_sheet

/-- Models `pd.read_excel(xls, SHEET_STOCKS)`. -/
def read_excel_stocks (wb : Workbook) : Option (List StockRecord) :=
  wb.stocksSheet.bind decode_stocks_sheet

/-- Models `pd.read_excel(xls, SHEET_UDHARI)`. -/
def read_excel_udhari (wb : Workbook) : Option (List UdhariRecord) :=
  wb.udhariSheet.bind decode_udhari_sheet

/-- Models `pd.read_excel(xls, SHEET_PF)`. -/
def read_excel_pf (wb : Workbook) : Option (List PFRecord) :=
  wb.pfSheet.bind decode_pf_sheet

/-- The backing file `personal_finance_data.xlsx` as the process can find
it: absent (`FileNotFoundError`), present but not openable as a workbook
(`pd.ExcelFile` raises), or an openable workbook. -/
inductive ExcelFileState where
  | missing
  | unparseable
  | parsed (wb : Workbook)
  deriving Repr, DecidableEq

/-- Embeds `load_data` (src/app.py lines 27-39).  Returns the resulting session
state and whether `st.error` was shown.  A missing file is passed over
silently, keeping the current (empty at startup) dataframes; any other
exception is caught after the sheets read so far have already been
assigned into `st.session_state`, and shows an error. -/
def load_data (file : ExcelFileState) (s : SessionState) : SessionState × Bool :=
  match file with
  | .missing => (s, false)
  | .unparseable => (s, true)
  | .parsed wb =>
    match read_excel_bank wb with
    | none => (s, true)
    | some b =>
      let s1 := { s with bank_df := b }
      match read_excel_mutual wb with
      | none => (s1, true)
      | some m =>
        let s2 := { s1 with mutual_df := m }
        match read_excel_stocks wb with
        | none => (s2, true)
        | some st =>
          let s3 := { s2 with stocks_df := st }
          match read_excel_udhari wb with
          | none => (s3, true)
          | some u =>
            let s4 := { s3 with udhari_df := u }
            match read_excel_pf wb with
            | none => (s4, true)
            | some p => ({ s4 with pf_df := p }, false)

/-- Embeds `save_data` (src/app.py lines 41-50): a full whole-file overwrite
writing all five ledgers as named sheets.  The write-error branch
(`SaveFailure`) is an I/O condition outside this embedding; the result is
the backing file a successful write leaves behind. -/
def save_data (s : SessionState) : ExcelFileState :=
  .parsed
    { bankSheet := some (encode_bank s.bank_df),
      mutualSheet := some (encode_mutual s.mutual_df),
      stocksSheet := some (encode_stocks s.stocks_df),
      udhariSheet := some (encode_udhari s.udhari_df),
      pfSheet := some (encode_pf s.pf_df) }

/-- An uploaded snapshot: either a file `pd.ExcelFile` cannot open, or a
workbook. -/
inductive UploadBlob where
  | unparseable
  | parsed (wb : Workbook)
  deriving Repr, DecidableEq

/-- The upload-to-replace-all block of `main` (src/app.py lines 402-417).
The five session dataframes are assigned one by one inside a single
`try`; only after all five succeed is the uploaded file copied over the
backing file.  Any exception is caught and shown (`ImportFailure`) with
the backing file untouched — but the assignments already made stand.
Returns (session state, backing file, whether `st.error` was shown). -/
def upload_replace (blob : UploadBlob) (file : ExcelFileState) (s : SessionState) :
    SessionState × ExcelFileState × Bool :=
  match blob with
  | .unparseable => (s, file, true)
  | .parsed wb =>
    match read_excel_bank wb with
    | none => (s, file, true)
    | some b =>
      let s1 := { s with bank_df := b }
      match read_excel_mutual wb with
      | none => (s1, file, true)
      | some m =>
        let s2 := { s1 with mutual_df := m }
        match read_excel_stocks wb with
        | none => (s2, file, true)
        | some st =>
          let s3 := { s2 with stocks_df := st }
          match read_excel_udhari wb with
          | none => (s3, file, true)
          | some u =>
            let s4 := { s3 with udhari_df := u }
            match read_excel_pf wb with
            | none => (s4, file, true)
            | some p => ({ s4 with pf_df := p }, .parsed wb, false)

/-- Concrete ledger set realizing the spec's aggregation example: category
totals 100/50/25/10/5. -/
def example_totals_state : SessionState :=
  { bank_df := [⟨"Salary Acct", 60⟩, ⟨"Savings", 40⟩],
    mutual_df := [⟨"Index Fund", 50⟩],
    stocks_df := [⟨"INFY", 25⟩],
    udhari_df := [⟨"Ravi", 10⟩],
    pf_df := [⟨"EPF", 5⟩] }
/-- The session state before the failing import of C1: one bank account and
one Udhari record (the backing file, kept write-through, holds the same). -/
def c1_old_state : SessionState :=
  { bank_df := [⟨"Old Account", 100⟩], mutual_df := [], stocks_df := [],
    udhari_df := [⟨"Ravi", 10⟩], pf_df := [] }

/-- The uploaded snapshot of C1: `BankAccounts`, `MutualFunds` and
`StockHoldings` sheets present, the `Udhari` (and `ProvisionFund`) section
missing. -/
def c1_snapshot : Workbook :=
  { bankSheet := some (encode_bank [⟨"New Account", 250⟩]),
    mutualSheet := some (encode_mutual []),
    stocksSheet := some (encode_stocks []),
    udhariSheet := none,
    pfSheet := none }
/-- The backing file of C8's counterexample: opens as a workbook, its
`BankAccounts`, `MutualFunds` and `StockHoldings` sheets are readable, but
the `Udhari` sheet is missing. -/
def c8_backing_workbook : Workbook :=
  { bankSheet := some (encode_bank [⟨"Stale Account", 7⟩]),
    mutualSheet := some (encode_mutual []),
    stocksSheet := some (encode_stocks []),
    udhariSheet := none,
    pfSheet := none }

/-! ## Helper lemmas -/

theorem decode_rows_map (encRow : α → List Cell) (decRow : List Cell → Option α)
    (h : ∀ a, decRow (encRow a) = some a) :
    ∀ l : List α, decode_rows decRow (l.map encRow) = some l := by
  intro l
  induction l with
  | nil => rfl
  | cons a t ih => simp [decode_rows, h a, ih]

theorem decode_encode_bank (l : List BankRecord) :
    decode_bank_sheet (encode_bank l) = some l := by
  have h : ∀ a : BankRecord, decode_bank_row [Cell.str a.accountName, Cell.num a.balance] = some a :=
    fun a => rfl
  simpa [encode_bank, decode_bank_sheet] using
    decode_rows_map (fun r => [Cell.str r.accountName, Cell.num r.balance]) decode_bank_row h l

theorem decode_encode_mutual (l : List MutualRecord) :
    decode_mutual_sheet (encode_mutual l) = some l := by
  have h : ∀ a : MutualRecord, decode_mutual_row [Cell.str a.fundName, Cell.num a.totalValue] = some a :=
    fun a => rfl
  simpa [encode_mutual, decode_mutual_sheet] using
    decode_rows_map (fun r => [Cell.str r.fundName, Cell.num r.totalValue]) decode_mutual_row h l

theorem decode_encode_stocks (l : List StockRecord) :
    decode_stocks_sheet (encode_stocks l) = some l := by
  have h : ∀ a : StockRecord, decode_stocks_row [Cell.str a.stock, Cell.num a.totalValue] = some a :=
    fun a => rfl
  simpa [encode_stocks, decode_stocks_sheet] using
    decode_rows_map (fun r => [Cell.str r.stock, Cell.num r.totalValue]) decode_stocks_row h l

theorem decode_encode_udhari (l : List UdhariRecord) :
    decode_udhari_sheet (encode_udhari l) = some l := by
  have h : ∀ a : UdhariRecord, decode_udhari_row [Cell.str a.person, Cell.num a.amountOwed] = some a :=
    fun a => rfl
  simpa [encode_udhari, decode_udhari_sheet] using
    decode_rows_map (fun r => [Cell.str r.person, Cell.num r.amountOwed]) decode_udhari_row h l

theorem decode_encode_pf (l : List PFRecord) :
    decode_pf_sheet (encode_pf l) = some l := by
  have h : ∀ a : PFRecord, decode_pf_row [Cell.str a.pfAccountName, Cell.num a.balance] = some a :=
    fun a => rfl
  simpa [encode_pf, decode_pf_sheet] using
    decode_rows_map (fun r => [Cell.str r.pfAccountName, Cell.num r.balance]) decode_pf_row h l

theorem ite_isEmpty_sum {α : Type} (l : List α) (f : α → ℚ) :
    (if l.isEmpty then (0 : ℚ) else (l.map f).sum) = (l.map f).sum := by
  cases l <;> simp


/-! ## Claim theorems -/

/-- C7: `load_data` when the backing file does not exist keeps the (all
empty at startup) ledgers and reports no failure: the missing file is the
bootstrap state, not an error. -/
theorem claim_C7_missing_file_bootstrap :
    load_data .missing initial_session_state = (initial_session_state, false) ∧
    initial_session_state.bank_df = [] ∧
    initial_session_state.mutual_df = [] ∧
    initial_session_state.stocks_df = [] ∧
    initial_session_state.udhari_df = [] ∧
    initial_session_state.pf_df = [] :=
  ⟨rfl, rfl, rfl, rfl, rfl, rfl⟩

/-- C9: round-trip persistence — `save_data` followed by `load_data`
reproduces every ledger set exactly (same sections, same rows in the same
order, same field values), whatever session state the load starts from,
and reports no failure. -/
theorem claim_C9_save_load_roundtrip (s s₀ : SessionState) :
    load_data (save_data s) s₀ = (s, false) := by
  simp [load_data, save_data, read_excel_bank, read_excel_mutual, read_excel_stocks,
    read_excel_udhari, read_excel_pf, decode_encode_bank, decode_encode_mutual,
    decode_encode_stocks, decode_encode_udhari, decode_encode_pf]

/-- C6: `financial_overview` returns per-category totals equal to the sum of
each ledger's value column (an empty ledger contributing 0), the composite
`bank + loans`, the composite `bank + loans + mutual funds + stocks`, and a
grand total equal to the sum of all five categories; on the example state
(totals 100/50/25/10/5) the composites are 110 and 185 and the grand total
is 190. -/
theorem claim_C6_totals :
    (∀ s : SessionState,
      (financial_overview s).total_bank = (s.bank_df.map (fun r => r.balance)).sum ∧
      (financial_overview s).total_mutual = (s.mutual_df.map (fun r => r.totalValue)).sum ∧
      (financial_overview s).total_stocks = (s.stocks_df.map (fun r => r.totalValue)).sum ∧
      (financial_overview s).total_udhari = (s.udhari_df.map (fun r => r.amountOwed)).sum ∧
      (financial_overview s).total_pf = (s.pf_df.map (fun r => r.balance)).sum ∧
      (financial_overview s).udahri_cash =
        (financial_overview s).total_bank + (financial_overview s).total_udhari ∧
      (financial_overview s).udhari_cash_stock =
        (financial_overview s).udahri_cash +
          (financial_overview s).total_mutual + (financial_overview s).total_stocks ∧
      (financial_overview s).total_wealth =
        (financial_overview s).total_bank + (financial_overview s).total_mutual +
          (financial_overview s).total_stocks + (financial_overview s).total_udhari +
          (financial_overview s).total_pf) ∧
    financial_overview initial_session_state = ⟨0, 0, 0, 0, 0, 0, 0, 0⟩ ∧
    (financial_overview example_totals_state).total_bank = 100 ∧
    (financial_overview example_totals_state).total_mutual = 50 ∧
    (financial_overview example_totals_state).total_stocks = 25 ∧
    (financial_overview example_totals_state).total_udhari = 10 ∧
    (financial_overview example_totals_state).total_pf = 5 ∧
    (financial_overview example_totals_state).udahri_cash = 110 ∧
    (financial_overview example_totals_state).udhari_cash_stock = 185 ∧
    (financial_overview example_totals_state).total_wealth = 190 := by
  refine ⟨fun s => ?_, ?_⟩
  · simp [financial_overview, ite_isEmpty_sum]
    refine ⟨?_, ?_, ?_, ?_, ?_⟩ <;> intro h <;> simp [h]
  · norm_num [financial_overview, example_totals_state, initial_session_state]

/-- C4: for every ledger, a candidate whose required text field strips to
empty is rejected with `EmptyField` and the whole session state (hence the
target ledger) is unchanged; since the numeric field `q` is arbitrary —
negative included — the empty-text check fires first (first failure wins).
-/
theorem claim_C4_empty_text_rejected (s : SessionState) (t : String) (q : ℚ)
    (h : py_strip t = "") :
    add_bank_account s t q = (s, .rejected .emptyField) ∧
    add_mutual_fund s t q = (s, .rejected .emptyField) ∧
    add_stock_holding s t q = (s, .rejected .emptyField) ∧
    add_udhari s t q = (s, .rejected .emptyField) ∧
    add_provision_fund s t q = (s, .rejected .emptyField) := by
  simp [add_bank_account, add_mutual_fund, add_stock_holding, add_udhari,
    add_provision_fund, h]

/-- C4 witness: a whitespace-only name together with a negative number is
rejected as `EmptyField` on the bank ledger of the fresh state. -/
theorem claim_C4_empty_text_rejected_witness :
    py_strip ("  ") = "" ∧
    add_bank_account initial_session_state ("  ") (-3) =
      (initial_session_state, .rejected .emptyField) :=
  ⟨by decide,
   (claim_C4_empty_text_rejected initial_session_state ("  ") (-3) (by decide)).1⟩

/-- C5: deletion renumbers positions on every one of the five ledgers:
from a three-record ledger `[a, b, c]`, deleting position 1 yields `[a, c]`,
and a subsequent edit of position 1 (with valid fields) overwrites the
record that was `c`, leaving `a` at position 0 — `b` is gone, not `c`. -/
theorem claim_C5_delete_renumbers
    (a₁ b₁ c₁ : BankRecord) (a₂ b₂ c₂ : MutualRecord) (a₃ b₃ c₃ : StockRecord)
    (a₄ b₄ c₄ : UdhariRecord) (a₅ b₅ c₅ : PFRecord) (n : String) (q : ℚ)
    (hn : py_strip n ≠ "") (hq : validate_positive_number q = true) :
    ((delete_bank_account ⟨[a₁, b₁, c₁], [], [], [], []⟩ 1).bank_df = [a₁, c₁] ∧
      (edit_bank_account (delete_bank_account ⟨[a₁, b₁, c₁], [], [], [], []⟩ 1)
          1 n q).1.bank_df = [a₁, ⟨py_strip n, q⟩]) ∧
    ((delete_mutual_fund ⟨[], [a₂, b₂, c₂], [], [], []⟩ 1).mutual_df = [a₂, c₂] ∧
      (edit_mutual_fund (delete_mutual_fund ⟨[], [a₂, b₂, c₂], [], [], []⟩ 1)
          1 n q).1.mutual_df = [a₂, ⟨py_strip n, q⟩]) ∧
    ((delete_stock_holding ⟨[], [], [a₃, b₃, c₃], [], []⟩ 1).stocks_df = [a₃, c₃] ∧
      (edit_stock_holding (delete_stock_holding ⟨[], [], [a₃, b₃, c₃], [], []⟩ 1)
          1 n q).1.stocks_df = [a₃, ⟨py_upper (py_strip n), q⟩]) ∧
    ((delete_udhari ⟨[], [], [], [a₄, b₄, c₄], []⟩ 1).udhari_df = [a₄, c₄] ∧
      (edit_udhari (delete_udhari ⟨[], [], [], [a₄, b₄, c₄], []⟩ 1)
          1 n q).1.udhari_df = [a₄, ⟨py_strip n, q⟩]) ∧
    ((delete_provision_fund ⟨[], [], [], [], [a₅, b₅, c₅]⟩ 1).pf_df = [a₅, c₅] ∧
      (edit_provision_fund (delete_provision_fund ⟨[], [], [], [], [a₅, b₅, c₅]⟩ 1)
          1 n q).1.pf_df = [a₅, ⟨py_strip n, q⟩]) := by
  refine ⟨⟨rfl, ?_⟩, ⟨rfl, ?_⟩, ⟨rfl, ?_⟩, ⟨rfl, ?_⟩, ⟨rfl, ?_⟩⟩ <;>
    simp [delete_bank_account, delete_mutual_fund, delete_stock_holding,
      delete_udhari, delete_provision_fund, edit_bank_account, edit_mutual_fund,
      edit_stock_holding, edit_udhari, edit_provision_fund, hn, hq,
      List.eraseIdx, List.set]

/-- C5 witness: concrete three-record ledgers, a valid replacement record. -/
theorem claim_C5_delete_renumbers_witness :
    py_strip ("Edited") ≠ "" ∧ validate_positive_number 7 = true ∧
    ((delete_bank_account
        ⟨[⟨"a", 1⟩, ⟨"b", 2⟩, ⟨"c", 3⟩], [], [], [], []⟩ 1).bank_df =
          [⟨"a", 1⟩, ⟨"c", 3⟩] ∧
      (edit_bank_account (delete_bank_account
          ⟨[⟨"a", 1⟩, ⟨"b", 2⟩, ⟨"c", 3⟩], [], [], [], []⟩ 1)
          1 ("Edited") 7).1.bank_df = [⟨"a", 1⟩, ⟨py_strip ("Edited"), 7⟩]) :=
  ⟨by decide, by decide,
   (claim_C5_delete_renumbers
      ⟨"a", 1⟩ ⟨"b", 2⟩ ⟨"c", 3⟩ ⟨"a", 1⟩ ⟨"b", 2⟩ ⟨"c", 3⟩
      ⟨"a", 1⟩ ⟨"b", 2⟩ ⟨"c", 3⟩ ⟨"a", 1⟩ ⟨"b", 2⟩ ⟨"c", 3⟩
      ⟨"a", 1⟩ ⟨"b", 2⟩ ⟨"c", 3⟩ ("Edited") 7 (by decide) (by decide)).1⟩

theorem add_bank_frame (s : SessionState) (t : String) (q : ℚ) :
    (add_bank_account s t q).1.mutual_df = s.mutual_df ∧
    (add_bank_account s t q).1.stocks_df = s.stocks_df ∧
    (add_bank_account s t q).1.udhari_df = s.udhari_df ∧
    (add_bank_account s t q).1.pf_df = s.pf_df := by
  by_cases h1 : py_strip t = "" <;>
    by_cases h2 : validate_positive_number q = false <;>
      simp [add_bank_account, h1, h2]

theorem add_mutual_frame (s : SessionState) (t : String) (q : ℚ) :
    (add_mutual_fund s t q).1.bank_df = s.bank_df ∧
    (add_mutual_fund s t q).1.stocks_df = s.stocks_df ∧
    (add_mutual_fund s t q).1.udhari_df = s.udhari_df ∧
    (add_mutual_fund s t q).1.pf_df = s.pf_df := by
  by_cases h1 : py_strip t = "" <;>
    by_cases h2 : validate_positive_number q = false <;>
      simp [add_mutual_fund, h1, h2]

theorem add_stocks_frame (s : SessionState) (t : String) (q : ℚ) :
    (add_stock_holding s t q).1.bank_df = s.bank_df ∧
    (add_stock_holding s t q).1.mutual_df = s.mutual_df ∧
    (add_stock_holding s t q).1.udhari_df = s.udhari_df ∧
    (add_stock_holding s t q).1.pf_df = s.pf_df := by
  by_cases h1 : py_strip t = "" <;> simp [add_stock_holding, h1]

theorem add_udhari_frame (s : SessionState) (t : String) (q : ℚ) :
    (add_udhari s t q).1.bank_df = s.bank_df ∧
    (add_udhari s t q).1.mutual_df = s.mutual_df ∧
    (add_udhari s t q).1.stocks_df = s.stocks_df ∧
    (add_udhari s t q).1.pf_df = s.pf_df := by
  by_cases h1 : py_strip t = "" <;>
    by_cases h2 : validate_positive_number q = false <;>
      simp [add_udhari, h1, h2]

theorem add_pf_frame (s : SessionState) (t : String) (q : ℚ) :
    (add_provision_fund s t q).1.bank_df = s.bank_df ∧
    (add_provision_fund s t q).1.mutual_df = s.mutual_df ∧
    (add_provision_fund s t q).1.stocks_df = s.stocks_df ∧
    (add_provision_fund s t q).1.udhari_df = s.udhari_df := by
  by_cases h1 : py_strip t = "" <;>
    by_cases h2 : validate_positive_number q = false <;>
      simp [add_provision_fund, h1, h2]

theorem edit_bank_frame (s : SessionState) (i : Nat) (t : String) (q : ℚ) :
    (edit_bank_account s i t q).1.mutual_df = s.mutual_df ∧
    (edit_bank_account s i t q).1.stocks_df = s.stocks_df ∧
    (edit_bank_account s i t q).1.udhari_df = s.udhari_df ∧
    (edit_bank_account s i t q).1.pf_df = s.pf_df := by
  by_cases h1 : py_strip t = "" <;>
    by_cases h2 : validate_positive_number q = false <;>
      simp [edit_bank_account, h1, h2]

theorem edit_mutual_frame (s : SessionState) (i : Nat) (t : String) (q : ℚ) :
    (edit_mutual_fund s i t q).1.bank_df = s.bank_df ∧
    (edit_mutual_fund s i t q).1.stocks_df = s.stocks_df ∧
    (edit_mutual_fund s i t q).1.udhari_df = s.udhari_df ∧
    (edit_mutual_fund s i t q).1.pf_df = s.pf_df := by
  by_cases h1 : py_strip t = "" <;>
    by_cases h2 : validate_positive_number q = false <;>
      simp [edit_mutual_fund, h1, h2]

theorem edit_stocks_frame (s : SessionState) (i : Nat) (t : String) (q : ℚ) :
    (edit_stock_holding s i t q).1.bank_df = s.bank_df ∧
    (edit_stock_holding s i t q).1.mutual_df = s.mutual_df ∧
    (edit_stock_holding s i t q).1.udhari_df = s.udhari_df ∧
    (edit_stock_holding s i t q).1.pf_df = s.pf_df := by
  by_cases h1 : py_strip t = "" <;> simp [edit_stock_holding, h1]

theorem edit_udhari_frame (s : SessionState) (i : Nat) (t : String) (q : ℚ) :
    (edit_udhari s i t q).1.bank_df = s.bank_df ∧
    (edit_udhari s i t q).1.mutual_df = s.mutual_df ∧
    (edit_udhari s i t q).1.stocks_df = s.stocks_df ∧
    (edit_udhari s i t q).1.pf_df = s.pf_df := by
  by_cases h1 : py_strip t = "" <;>
    by_cases h2 : validate_positive_number q = false <;>
      simp [edit_udhari, h1, h2]

theorem edit_pf_frame (s : SessionState) (i : Nat) (t : String) (q : ℚ) :
    (edit_provision_fund s i t q).1.bank_df = s.bank_df ∧
    (edit_provision_fund s i t q).1.mutual_df = s.mutual_df ∧
    (edit_provision_fund s i t q).1.stocks_df = s.stocks_df ∧
    (edit_provision_fund s i t q).1.udhari_df = s.udhari_df := by
  by_cases h1 : py_strip t = "" <;>
    by_cases h2 : validate_positive_number q = false <;>
      simp [edit_provision_fund, h1, h2]

theorem delete_bank_frame (s : SessionState) (i : Nat) :
    (delete_bank_account s i).mutual_df = s.mutual_df ∧
    (delete_bank_account s i).stocks_df = s.stocks_df ∧
    (delete_bank_account s i).udhari_df = s.udhari_df ∧
    (delete_bank_account s i).pf_df = s.pf_df :=
  ⟨rfl, rfl, rfl, rfl⟩

theorem delete_mutual_frame (s : SessionState) (i : Nat) :
    (delete_mutual_fund s i).bank_df = s.bank_df ∧
    (delete_mutual_fund s i).stocks_df = s.stocks_df ∧
    (delete_mutual_fund s i).udhari_df = s.udhari_df ∧
    (delete_mutual_fund s i).pf_df = s.pf_df :=
  ⟨rfl, rfl, rfl, rfl⟩

theorem delete_stocks_frame (s : SessionState) (i : Nat) :
    (delete_stock_holding s i).bank_df = s.bank_df ∧
    (delete_stock_holding s i).mutual_df = s.mutual_df ∧
    (delete_stock_holding s i).udhari_df = s.udhari_df ∧
    (delete_stock_holding s i).pf_df = s.pf_df :=
  ⟨rfl, rfl, rfl, rfl⟩

theorem delete_udhari_frame (s : SessionState) (i : Nat) :
    (delete_udhari s i).bank_df = s.bank_df ∧
    (delete_udhari s i).mutual_df = s.mutual_df ∧
    (delete_udhari s i).stocks_df = s.stocks_df ∧
    (delete_udhari s i).pf_df = s.pf_df :=
  ⟨rfl, rfl, rfl, rfl⟩

theorem delete_pf_frame (s : SessionState) (i : Nat) :
    (delete_provision_fund s i).bank_df = s.bank_df ∧
    (delete_provision_fund s i).mutual_df = s.mutual_df ∧
    (delete_provision_fund s i).stocks_df = s.stocks_df ∧
    (delete_provision_fund s i).udhari_df = s.udhari_df :=
  ⟨rfl, rfl, rfl, rfl⟩

/-- C10 (frame property): every single-ledger mutation — the add, edit and
delete handlers of each of the five ledgers, on any state, any submitted
fields and any selected index — leaves the in-memory contents of the other
four ledgers unchanged. -/
theorem claim_C10_single_ledger_frame (s : SessionState) (t : String) (q : ℚ) (i : Nat) :
    ((add_bank_account s t q).1.mutual_df = s.mutual_df ∧
      (add_bank_account s t q).1.stocks_df = s.stocks_df ∧
      (add_bank_account s t q).1.udhari_df = s.udhari_df ∧
      (add_bank_account s t q).1.pf_df = s.pf_df) ∧
    ((add_mutual_fund s t q).1.bank_df = s.bank_df ∧
      (add_mutual_fund s t q).1.stocks_df = s.stocks_df ∧
      (add_mutual_fund s t q).1.udhari_df = s.udhari_df ∧
      (add_mutual_fund s t q).1.pf_df = s.pf_df) ∧
    ((add_stock_holding s t q).1.bank_df = s.bank_df ∧
      (add_stock_holding s t q).1.mutual_df = s.mutual_df ∧
      (add_stock_holding s t q).1.udhari_df = s.udhari_df ∧
      (add_stock_holding s t q).1.pf_df = s.pf_df) ∧
    ((add_udhari s t q).1.bank_df = s.bank_df ∧
      (add_udhari s t q).1.mutual_df = s.mutual_df ∧
      (add_udhari s t q).1.stocks_df = s.stocks_df ∧
      (add_udhari s t q).1.pf_df = s.pf_df) ∧
    ((add_provision_fund s t q).1.bank_df = s.bank_df ∧
      (add_provision_fund s t q).1.mutual_df = s.mutual_df ∧
      (add_provision_fund s t q).1.stocks_df = s.stocks_df ∧
      (add_provision_fund s t q).1.udhari_df = s.udhari_df) ∧
    ((edit_bank_account s i t q).1.mutual_df = s.mutual_df ∧
      (edit_bank_account s i t q).1.stocks_df = s.stocks_df ∧
      (edit_bank_account s i t q).1.udhari_df = s.udhari_df ∧
      (edit_bank_account s i t q).1.pf_df = s.pf_df) ∧
    ((edit_mutual_fund s i t q).1.bank_df = s.bank_df ∧
      (edit_mutual_fund s i t q).1.stocks_df = s.stocks_df ∧
      (edit_mutual_fund s i t q).1.udhari_df = s.udhari_df ∧
      (edit_mutual_fund s i t q).1.pf_df = s.pf_df) ∧
    ((edit_stock_holding s i t q).1.bank_df = s.bank_df ∧
      (edit_stock_holding s i t q).1.mutual_df = s.mutual_df ∧
      (edit_stock_holding s i t q).1.udhari_df = s.udhari_df ∧
      (edit_stock_holding s i t q).1.pf_df = s.pf_df) ∧
    ((edit_udhari s i t q).1.bank_df = s.bank_df ∧
      (edit_udhari s i t q).1.mutual_df = s.mutual_df ∧
      (edit_udhari s i t q).1.stocks_df = s.stocks_df ∧
      (edit_udhari s i t q).1.pf_df = s.pf_df) ∧
    ((edit_provision_fund s i t q).1.bank_df = s.bank_df ∧
      (edit_provision_fund s i t q).1.mutual_df = s.mutual_df ∧
      (edit_provision_fund s i t q).1.stocks_df = s.stocks_df ∧
      (edit_provision_fund s i t q).1.udhari_df = s.udhari_df) ∧
    ((delete_bank_account s i).mutual_df = s.mutual_df ∧
      (delete_bank_account s i).stocks_df = s.stocks_df ∧
      (delete_bank_account s i).udhari_df = s.udhari_df ∧
      (delete_bank_account s i).pf_df = s.pf_df) ∧
    ((delete_mutual_fund s i).bank_df = s.bank_df ∧
      (delete_mutual_fund s i).stocks_df = s.stocks_df ∧
      (delete_mutual_fund s i).udhari_df = s.udhari_df ∧
      (delete_mutual_fund s i).pf_df = s.pf_df) ∧
    ((delete_stock_holding s i).bank_df = s.bank_df ∧
      (delete_stock_holding s i).mutual_df = s.mutual_df ∧
      (delete_stock_holding s i).udhari_df = s.udhari_df ∧
      (delete_stock_holding s i).pf_df = s.pf_df) ∧
    ((delete_udhari s i).bank_df = s.bank_df ∧
      (delete_udhari s i).mutual_df = s.mutual_df ∧
      (delete_udhari s i).stocks_df = s.stocks_df ∧
      (delete_udhari s i).pf_df = s.pf_df) ∧
    ((delete_provision_fund s i).bank_df = s.bank_df ∧
      (delete_provision_fund s i).mutual_df = s.mutual_df ∧
      (delete_provision_fund s i).stocks_df = s.stocks_df ∧
      (delete_provision_fund s i).udhari_df = s.udhari_df) :=
  ⟨add_bank_frame s t q, add_mutual_frame s t q, add_stocks_frame s t q,
    add_udhari_frame s t q, add_pf_frame s t q,
    edit_bank_frame s i t q, edit_mutual_frame s i t q, edit_stocks_frame s i t q,
    edit_udhari_frame s i t q, edit_pf_frame s i t q,
    delete_bank_frame s i, delete_mutual_frame s i, delete_stocks_frame s i,
    delete_udhari_frame s i, delete_pf_frame s i⟩

/-- C2 (code bug, evaluated at the failing input): the stock *create* path
stores the submitted symbol verbatim — `" tsla "` is accepted and stored
exactly as typed, although stripping and upper-casing it would give
`"TSLA"` (which is what the success message displays and what the *edit*
path stores). -/
theorem claim_C2_create_stores_symbol_verbatim :
    add_stock_holding initial_session_state (" tsla ") 5 =
      ({ initial_session_state with stocks_df := [⟨" tsla ", 5⟩] }, .ok) ∧
    py_upper (py_strip (" tsla ")) = "TSLA" ∧
    (" tsla " : String) ≠ "TSLA" ∧
    edit_stock_holding { initial_session_state with stocks_df := [⟨"X", 0⟩] }
        0 (" tsla ") 5 =
      ({ initial_session_state with stocks_df := [⟨"TSLA", 5⟩] }, .ok) := by
  refine ⟨?_, by decide, by decide, ?_⟩ <;> decide

/-- C3 (code bug, evaluated at the failing input): the stock create path
performs no numeric validation, so a candidate with a negative Total Value
is appended (`Ok`, ledger length 0 → 1) instead of being rejected with
`NegativeValue` — while `validate_positive_number` itself does flag the
value. -/
theorem claim_C3_stock_negative_appended :
    add_stock_holding initial_session_state ("TCS") (-5) =
      ({ initial_session_state with stocks_df := [⟨"TCS", -5⟩] }, .ok) ∧
    validate_positive_number (-5) = false ∧
    ((-5 : ℚ) < 0) := by
  refine ⟨?_, by decide, by decide⟩
  decide


/-- C1 counterexample: importing a snapshot that is missing the Udhari
section does report the failure (`st.error`, the `ImportFailure`), but it
does NOT leave all five existing ledgers unchanged — the bank ledger has
already been replaced by the snapshot's rows when the Udhari read raises.
The last conjunct closes the `main` flow too: in the bootstrap state (no
backing file yet), even the `load_data()` call that follows the failed
upload block cannot restore the ledgers, and the bank ledger stays
replaced. -/
theorem claim_C1_counterexample :
    (upload_replace (.parsed c1_snapshot) (save_data c1_old_state) c1_old_state).2.2
      = true ∧
    (upload_replace (.parsed c1_snapshot) (save_data c1_old_state) c1_old_state).1.bank_df
      ≠ c1_old_state.bank_df ∧
    (load_data
        (upload_replace (.parsed c1_snapshot) .missing initial_session_state).2.1
        (upload_replace (.parsed c1_snapshot) .missing initial_session_state).1).1.bank_df
      ≠ initial_session_state.bank_df := by
  refine ⟨rfl, ?_, ?_⟩ <;> decide

/-- C1 amended: importing a snapshot whose Udhari section is missing (the
three sections the code reads first being readable) reports `ImportFailure`
and leaves the backing file untouched, but the in-memory bank, mutual-fund
and stock ledgers have already been replaced by the snapshot's data; only
the Udhari and ProvisionFund ledgers keep their previous contents. -/
theorem claim_C1_import_missing_udhari (s : SessionState) (file : ExcelFileState)
    (wb : Workbook) (b : List BankRecord) (m : List MutualRecord)
    (st : List StockRecord)
    (hb : read_excel_bank wb = some b) (hm : read_excel_mutual wb = some m)
    (hst : read_excel_stocks wb = some st) (hu : wb.udhariSheet = none) :
    upload_replace (.parsed wb) file s =
      ({ s with bank_df := b, mutual_df := m, stocks_df := st }, file, true) := by
  simp [upload_replace, hb, hm, hst, read_excel_udhari, hu]

/-- C1 witness: the amended behaviour at the concrete snapshot and state of
the counterexample. -/
theorem claim_C1_import_missing_udhari_witness :
    (read_excel_bank c1_snapshot = some [⟨"New Account", 250⟩] ∧
      read_excel_mutual c1_snapshot = some [] ∧
      read_excel_stocks c1_snapshot = some [] ∧
      c1_snapshot.udhariSheet = none) ∧
    upload_replace (.parsed c1_snapshot) (save_data c1_old_state) c1_old_state =
      ({ c1_old_state with
          bank_df := [⟨"New Account", 250⟩]
          mutual_df := []
          stocks_df := [] }, save_data c1_old_state, true) :=
  ⟨⟨by decide, by decide, by decide, rfl⟩,
   claim_C1_import_missing_udhari c1_old_state (save_data c1_old_state) c1_snapshot
     _ _ _ (by decide) (by decide) (by decide) rfl⟩


/-- C8 counterexample: a backing file that is present but unloadable (the
startup load fails and shows the warning) on which the resulting state does
NOT have all five ledgers empty — the bank ledger retains the rows read
from the file before the failure. -/
theorem claim_C8_counterexample :
    (load_data (.parsed c8_backing_workbook) initial_session_state).2 = true ∧
    (load_data (.parsed c8_backing_workbook) initial_session_state).1.bank_df
      ≠ [] := by
  refine ⟨rfl, ?_⟩
  decide

/-- C8 amended: at startup, a backing file that cannot even be opened as a
workbook leaves all five ledgers empty and shows the warning; but when the
workbook opens and a later section (here Udhari) is missing, the sections
read before the failure (bank, mutual funds, stocks) retain the loaded
data, the remaining ledgers stay empty, and the warning is still shown. -/
theorem claim_C8_corrupt_file_load (wb : Workbook) (b : List BankRecord)
    (m : List MutualRecord) (st : List StockRecord)
    (hb : read_excel_bank wb = some b) (hm : read_excel_mutual wb = some m)
    (hst : read_excel_stocks wb = some st) (hu : wb.udhariSheet = none) :
    load_data .unparseable initial_session_state = (initial_session_state, true) ∧
    initial_session_state = ⟨[], [], [], [], []⟩ ∧
    load_data (.parsed wb) initial_session_state =
      ({ initial_session_state with
          bank_df := b
          mutual_df := m
          stocks_df := st }, true) := by
  refine ⟨rfl, rfl, ?_⟩
  simp [load_data, hb, hm, hst, read_excel_udhari, hu]

/-- C8 witness: the amended behaviour at the concrete backing workbook of
the counterexample. -/
theorem claim_C8_corrupt_file_load_witness :
    (read_excel_bank c8_backing_workbook = some [⟨"Stale Account", 7⟩] ∧
      read_excel_mutual c8_backing_workbook = some [] ∧
      read_excel_stocks c8_backing_workbook = some [] ∧
      c8_backing_workbook.udhariSheet = none) ∧
    load_data (.parsed c8_backing_workbook) initial_session_state =
      ({ initial_session_state with
          bank_df := [⟨"Stale Account", 7⟩]
          mutual_df := []
          stocks_df := [] }, true) :=
  ⟨⟨by decide, by decide, by decide, rfl⟩,
   (claim_C8_corrupt_file_load c8_backing_workbook _ _ _
      (by decide) (by decide) (by decide) rfl).2.2⟩

end PersonalFinance
